import Mathlib

/-!
# Verification of the `minibox` storage-representation core

Shallow embedding of the `minibox` Rust crate (`src/lib.rs`, `src/trait_impls.rs`,
`src/default.rs`). A type `T` is represented by its layout data (size and
alignment in bytes, as naturals); the machine-word slot of a `MiniBox<T>` /
`MiniPtr<T>` is an abstract `Slot` that either is uninitialized, holds an inline
value, or holds an address-sized word (a heap pointer, possibly null). Heap
memory is a function from addresses to cells; allocator and destructor
interactions are tracked in an explicit `Effect` record.
-/

namespace Minibox

/-- The storage strategy of a `MiniBox`/`MiniPtr` (`enum SizeClass`,
`repr(u8)` with discriminants `Zero = 0`, `Inline = 1`, `Boxed = 2`). -/
inductive SizeClass where
  | Zero
  | Inline
  | Boxed
deriving DecidableEq, Repr

/-- The `as usize` cast of a `SizeClass` value, from the `repr(u8)`
discriminants in the source. -/
def SizeClass.toIdx : SizeClass → Nat
  | .Zero => 0
  | .Inline => 1
  | .Boxed => 2

/-- Rust `SizeClass::new::<T>()`, the `#[cfg(feature = "nightly")]` if-chain, as a
function of the layout of `T` (`size`, `align`) and of `*mut ()`
(`sizePtr`, `alignPtr`). -/
def sizeClassNightly (sizePtr alignPtr size align : Nat) : SizeClass :=
  if size = 0 then SizeClass.Zero
  else if size ≤ sizePtr ∧ align ≤ alignPtr then SizeClass.Inline
  else SizeClass.Boxed

/-- Rust `SizeClass::new::<T>()`, the `#[cfg(not(feature = "nightly"))]`
two-dimensional lookup table
`[[Zero, Zero], [Inline, Boxed], [Boxed, Boxed]]` indexed by
`(size != 0) as usize * ((align > align_ptr) as usize + 1)` and then by
`(size > size_ptr) as usize`. Out-of-bounds indexing (a Rust panic) is `none`. -/
def sizeClassTable (sizePtr alignPtr size align : Nat) : Option SizeClass :=
  let table : List (List SizeClass) :=
    [[SizeClass.Zero, SizeClass.Zero],
     [SizeClass.Inline, SizeClass.Boxed],
     [SizeClass.Boxed, SizeClass.Boxed]]
  let row := (if size ≠ 0 then 1 else 0) * ((if align > alignPtr then 1 else 0) + 1)
  let col := if size > sizePtr then 1 else 0
  (table.get? row).bind fun r => r.get? col

/-- Modelled from the spec's classification rule, for comparison with the two
source implementations: "size 0 → `Zero`; else size ≤ pointer size AND
alignment ≤ pointer alignment → `Inline`; else → `Boxed`". -/
def sizeClassSpecRule (sizePtr alignPtr size align : Nat) : SizeClass :=
  if size = 0 then SizeClass.Zero
  else if size ≤ sizePtr ∧ align ≤ alignPtr then SizeClass.Inline
  else SizeClass.Boxed

/-- The one-word storage slot of a `MiniBox<T>` / `MiniPtr<T>`
(`MaybeUninit<*const T>`): either uninitialized (`MaybeUninit::uninit()`),
the bytes of an inline value of type `α`, or an address-sized word
(a pointer; `0` is the null pointer). -/
inductive Slot (α : Type) where
  | uninit
  | inl (v : α)
  | ptr (a : Nat)
deriving DecidableEq, Repr

/-- A heap cell: unallocated, allocated but uninitialized, or holding a
value of type `α`. -/
inductive HCell (α : Type) where
  | free
  | uninit
  | val (v : α)
deriving DecidableEq, Repr

/-- The global-allocator heap: one cell per address. -/
def Heap (α : Type) : Type := Nat → HCell α

/-- Observable side effects of one operation: `drops` counts invocations of
the instrumented element destructor of `T` (`k` per full value of `T`, where
`k` is the number of droppable elements `T` contains, e.g. `16` for an array
of 16 drop-counting elements), `allocs` counts calls to the global
allocator's allocate entry points, `frees` counts calls to its deallocate
entry point. -/
structure Effect where
  drops : Nat
  allocs : Nat
  frees : Nat
deriving DecidableEq, Repr

/-- The no-effect record. -/
def Effect.zero : Effect := ⟨0, 0, 0⟩

/-- Componentwise accumulation of effects. -/
def Effect.add (e₁ e₂ : Effect) : Effect :=
  ⟨e₁.drops + e₂.drops, e₁.allocs + e₂.allocs, e₁.frees + e₂.frees⟩

instance : Add Effect := ⟨Effect.add⟩

/-- Unfolding lemma for effect accumulation. -/
theorem Effect.add_def (e₁ e₂ : Effect) :
    e₁ + e₂ = ⟨e₁.drops + e₂.drops, e₁.allocs + e₂.allocs, e₁.frees + e₂.frees⟩ := rfl

/-- Rust `dangling::<T>()`: `align_of::<T>() as *mut T`, the zero-size anchor
address, as the numeric address. -/
def dangling (alignT : Nat) : Nat := alignT

/-- Rust `MiniPtr::to_raw` at the word level: for `SizeClass::Zero` it returns
`align_of::<T>()` regardless of the slot's bytes; for `Inline | Boxed` it is
`self.0.assume_init() as usize`, i.e. the slot's word when its bytes are fully
initialized (`word = none` models uninitialized bytes, where `assume_init`
is undefined behavior). -/
def to_raw (c : SizeClass) (alignT : Nat) (word : Option Nat) : Option Nat :=
  match c with
  | .Zero => some (dangling alignT)
  | .Inline | .Boxed => word

/-- The non-nightly panic guard of `MiniBox::new_zst`:
`[()][Self::SIZE_CLASS as usize]`, indexing a one-element array.
`none` is the index-out-of-bounds panic. -/
def zstCheckTable (c : SizeClass) : Option Unit :=
  ([()] : List Unit).get? c.toIdx

/-- The nightly panic guard of `MiniBox::new_zst`:
`match Self::SIZE_CLASS { SizeClass::Zero => (), _ => panic!(..) }`.
`none` is the panic. -/
def zstCheckNightly (c : SizeClass) : Option Unit :=
  match c with
  | .Zero => some ()
  | _ => none

/-- Rust `MiniBox::new_zst(value)`: run the class guard (panic = `none`), then
`core::mem::ManuallyDrop::new(value)` — the const-fn stand-in for
`mem::forget`, which discards `value` without running its destructor — and
return a container with an uninitialized slot. The returned effect records
that no destructor ran and no allocator call was made during `new_zst`. -/
def new_zst (c : SizeClass) (value : α) : Option (Slot α × Effect) :=
  (zstCheckTable c).map fun _ =>
    let _ := value
    (Slot.uninit, Effect.zero)

/-- Rust `MiniBox::new_zeroed_inline()`:
`[MaybeUninit::uninit(), MaybeUninit::new(core::ptr::null())][SIZE_CLASS as usize]`,
a two-element array indexed by the size class discriminant. `none` is the
index-out-of-bounds panic (for `Boxed`, discriminant 2). No allocator call
occurs in this function. -/
def new_zeroed_inline (α : Type) (c : SizeClass) : Option (Slot α × Effect) :=
  (([Slot.uninit, Slot.ptr 0] : List (Slot α)).get? c.toIdx).map fun s => (s, Effect.zero)

/-- Result of `MiniBox::with_alloc`: an index-out-of-bounds panic (cannot
occur, the indexing branch is only reached for classes `Zero`/`Inline`),
the diverging `handle_alloc_error` call, or a staging container with its
construction effect. -/
inductive WithAllocResult (α : Type) where
  | panicOOB
  | fatal
  | ok (slot : Slot α) (eff : Effect)
deriving DecidableEq, Repr

/-- Rust `MiniBox::with_alloc(alloc)`: match on the size class; `Zero | Inline`
delegate to `new_zeroed_inline` (no allocator call); `Boxed` calls the
allocator with `Layout::new::<T>()` — `p` is the pointer the allocator
returned — and invokes `handle_alloc_error` (which never returns) when `p`
is null, otherwise stores `p` in the slot. -/
def with_alloc (α : Type) (c : SizeClass) (p : Nat) : WithAllocResult α :=
  match c with
  | .Zero | .Inline =>
    match new_zeroed_inline α c with
    | some r => .ok r.1 r.2
    | none => .panicOOB
  | .Boxed =>
    if p = 0 then .fatal
    else .ok (Slot.ptr p) ⟨0, 1, 0⟩

/-- Rust `MiniBox::<MaybeUninit<T>>::write(value)`: `self.as_mut_ptr().write(value)`
followed by `assume_init`. The write goes through the dereference address of
the slot: for `Zero` the value has no bytes, so nothing is stored; for
`Inline` the slot now holds the value's bytes; for `Boxed` the heap cell the
slot points to receives the value. `ptr::write` never drops the previous
contents and makes no allocator call. `none` is undefined behavior (a `Boxed`
slot that does not hold a pointer to an allocated cell). -/
def write (c : SizeClass) (slot : Slot α) (value : α) (heap : Heap α) :
    Option (Slot α × Heap α) :=
  match c with
  | .Zero => some (slot, heap)
  | .Inline => some (Slot.inl value, heap)
  | .Boxed =>
    match slot with
    | .ptr a =>
      match heap a with
      | .free => none
      | _ => some (Slot.ptr a, fun n => if n = a then HCell.val value else heap n)
    | _ => none

/-- Rust `MiniBox::new(value)` = `Self::new_uninit().write(value)`, where
`new_uninit` is `with_alloc(std::alloc::alloc)` and `p` is the pointer that
allocator call returns on the `Boxed` path (fresh, unallocated). `none`
covers the two diverging outcomes (`handle_alloc_error`, unreachable panic). -/
def newBox (c : SizeClass) (value : α) (p : Nat) (heap : Heap α) :
    Option (Slot α × Heap α × Effect) :=
  match with_alloc α c p with
  | .ok s e =>
    (write c s value (if c = SizeClass.Boxed then fun n => if n = p then HCell.uninit else heap n
                      else heap)).map
      fun r => (r.1, r.2, e)
  | _ => none

/-- Rust `MiniBox::into_ptr(bx)`: the slot word is copied out and the box is fed
to `ManuallyDrop::new`, so no destructor runs and no allocator call is made. -/
def into_ptr (slot : Slot α) : Slot α × Effect :=
  (slot, Effect.zero)

/-- Rust `MiniBox::from_ptr(ptr)`: reassembles a container from the raw slot word;
runs no destructor and makes no allocator call. -/
def from_ptr (slot : Slot α) : Slot α × Effect :=
  (slot, Effect.zero)

/-- Rust `impl Drop for MiniBox<T>`, for a `T` whose value contains `k` droppable
elements: `Zero` runs `dangling::<T>().drop_in_place()` (the destructor runs,
no allocator call); `Inline` runs `drop_in_place` on the slot's own bytes;
`Boxed` drops `Box::from_raw(slot)`, running the destructor at the heap cell
and then deallocating it. `none` is undefined behavior (dropping a slot that
does not hold what its class requires). -/
def dropBox (c : SizeClass) (k : Nat) (slot : Slot α) (heap : Heap α) :
    Option (Heap α × Effect) :=
  match c with
  | .Zero => some (heap, ⟨k, 0, 0⟩)
  | .Inline =>
    match slot with
    | .inl _ => some (heap, ⟨k, 0, 0⟩)
    | _ => none
  | .Boxed =>
    match slot with
    | .ptr a =>
      match heap a with
      | .val _ => some (fun n => if n = a then HCell.free else heap n, ⟨k, 0, 1⟩)
      | _ => none
    | _ => none

/-- Rust `MiniBox::into_inner(bx)`: `into_ptr` (no drop), then by class:
`Zero` reads the value out of `dangling::<T>()` — reading zero bytes
materializes the value `z`, the canonical inhabitant of a zero-sized type;
`Inline` is `ptr::read` of the slot's bytes; `Boxed` is `*Box::from_raw(..)`,
which moves the value out and frees the heap cell without dropping the value.
`none` is undefined behavior. -/
def into_inner (c : SizeClass) (z : α) (slot : Slot α) (heap : Heap α) :
    Option (α × Heap α × Effect) :=
  let r := into_ptr slot
  match c with
  | .Zero => some (z, heap, r.2)
  | .Inline =>
    match r.1 with
    | .inl v => some (v, heap, r.2)
    | _ => none
  | .Boxed =>
    match r.1 with
    | .ptr a =>
      match heap a with
      | .val v => some (v, fun n => if n = a then HCell.free else heap n, r.2 + ⟨0, 0, 1⟩)
      | _ => none
    | _ => none

/-- Rust `impl Deref for MiniBox<T>` (and `MiniPtr::as_ref`): the address the
returned reference carries. `alignT` is `align_of::<T>()`, `selfAddr` the
address of the container itself. `Zero` → `dangling::<T>()`; `Inline` →
`self as *const Self as *const T` (the slot's own address); `Boxed` →
`self.ptr.assume_init()` (the word stored in the slot). No allocator call is
made, recorded in the paired effect. `none` is undefined behavior. -/
def derefAddr (c : SizeClass) (alignT selfAddr : Nat) (slot : Slot α) :
    Option (Nat × Effect) :=
  match c with
  | .Zero => some (dangling alignT, Effect.zero)
  | .Inline => some (selfAddr, Effect.zero)
  | .Boxed =>
    match slot with
    | .ptr a => some (a, Effect.zero)
    | _ => none

/-- Rust `impl From<Box<T>> for MiniBox<T>`: match on the size class.
`Zero` → `Self::new_zst(*value)` (a Rust `Box` of a zero-sized type owns no
allocation, so moving the value out makes no allocator call);
`Inline` → `Self::new(*value)` — `*value` moves the value out of the box and
the box's backing allocation at `boxAddr` is deallocated;
`Boxed` → the slot takes `Box::into_raw(value)`, the box's own pointer,
with no allocator call at all. `none` is undefined behavior (a non-`Zero`
box whose cell is not a live value). -/
def fromBox (c : SizeClass) (value : α) (boxAddr : Nat) (heap : Heap α) :
    Option (Slot α × Heap α × Effect) :=
  match c with
  | .Zero =>
    (new_zst SizeClass.Zero value).map fun r => (r.1, heap, r.2)
  | .Inline =>
    match heap boxAddr with
    | .val w =>
      (newBox SizeClass.Inline w 0 (fun n => if n = boxAddr then HCell.free else heap n)).map
        fun r => (r.1, r.2.1, r.2.2 + ⟨0, 0, 1⟩)
    | _ => none
  | .Boxed => some (Slot.ptr boxAddr, heap, Effect.zero)

/-! ## Claim theorems -/

/-- C1: for every type `T` (every size/alignment and every pointer layout),
`SizeClass::new::<T>()` returns `Zero` when the size is 0, otherwise `Inline`
when size and alignment are at most the pointer's, otherwise `Boxed`; the
nightly if-chain and the non-nightly two-dimensional lookup table both
compute exactly this function (and the table indexing never goes out of
bounds). -/
theorem sizeClass_new_matches_spec_rule (sizePtr alignPtr size align : Nat) :
    sizeClassNightly sizePtr alignPtr size align = sizeClassSpecRule sizePtr alignPtr size align ∧
    sizeClassTable sizePtr alignPtr size align =
      some (sizeClassSpecRule sizePtr alignPtr size align) := by
  refine ⟨rfl, ?_⟩
  rcases Nat.eq_zero_or_pos size with h0 | h0
  · simp [sizeClassTable, sizeClassSpecRule, h0]
  · have h0' : size ≠ 0 := Nat.pos_iff_ne_zero.mp h0
    rcases le_or_lt align alignPtr with h1 | h1 <;>
      rcases le_or_lt size sizePtr with h2 | h2
    · simp [sizeClassTable, sizeClassSpecRule, h0', h1, h2,
            Nat.not_lt.mpr h1, Nat.not_lt.mpr h2]
    · simp [sizeClassTable, sizeClassSpecRule, h0', h1, h2,
            Nat.not_lt.mpr h1, Nat.not_le.mpr h2]
    · simp [sizeClassTable, sizeClassSpecRule, h0', h1, h2,
            Nat.not_lt.mpr h2, Nat.not_le.mpr h1]
    · simp [sizeClassTable, sizeClassSpecRule, h0', h1, h2,
            Nat.not_le.mpr h1, Nat.not_le.mpr h2]

/-- C3: dereferencing yields the dangling anchor address for class `Zero`,
the container's own address for `Inline`, and the heap pointer stored in the
slot for `Boxed`; for a `Boxed` container the dereference result does not
depend on the container's own address, so the contained value's address is
unchanged when the handle is moved (the slot word is copied unchanged). -/
theorem deref_address_per_class (α : Type) (alignT selfAddr movedAddr a : Nat)
    (s : Slot α) (v : α) :
    derefAddr SizeClass.Zero alignT selfAddr s = some (dangling alignT, Effect.zero) ∧
    derefAddr SizeClass.Inline alignT selfAddr (Slot.inl v) = some (selfAddr, Effect.zero) ∧
    derefAddr SizeClass.Boxed alignT selfAddr (Slot.ptr a : Slot α) = some (a, Effect.zero) ∧
    derefAddr SizeClass.Boxed alignT movedAddr (Slot.ptr a : Slot α) =
      derefAddr SizeClass.Boxed alignT selfAddr (Slot.ptr a : Slot α) :=
  ⟨rfl, rfl, rfl, rfl⟩

/-- C5: `MiniBox::new_zst` succeeds exactly for `Zero`-class types and fails
(panics) for `Inline` and `Boxed` classes, and the non-nightly
index-into-`[()]` guard agrees with the nightly match-and-panic guard on
every size class. -/
theorem new_zst_guard_agrees_and_zero_only (α : Type) (c : SizeClass) (v : α) :
    zstCheckTable c = zstCheckNightly c ∧
    (zstCheckTable c = some () ↔ c = SizeClass.Zero) ∧
    ((new_zst c v).isSome ↔ c = SizeClass.Zero) := by
  cases c <;> simp [zstCheckTable, zstCheckNightly, new_zst, SizeClass.toIdx]

/-- C9: `dangling::<T>()` is `align_of::<T>()` cast to a pointer, which is
non-null (alignment is at least 1) and a multiple of the alignment; and
`MiniPtr::to_raw` for a `Zero`-class type returns exactly this
alignment-derived constant, whatever the slot's word is. -/
theorem dangling_nonnull_aligned_and_to_raw (alignT : Nat) (h : 1 ≤ alignT) :
    dangling alignT = alignT ∧
    dangling alignT ≠ 0 ∧
    alignT ∣ dangling alignT ∧
    ∀ word : Option Nat, to_raw SizeClass.Zero alignT word = some (dangling alignT) := by
  refine ⟨rfl, ?_, Dvd.intro 1 (by simp [dangling]), fun word => rfl⟩
  simp [dangling]
  omega

/-- Witness for C9 at alignment 8. -/
theorem dangling_nonnull_aligned_and_to_raw_witness :
    dangling 8 = 8 ∧
    dangling 8 ≠ 0 ∧
    8 ∣ dangling 8 ∧
    ∀ word : Option Nat, to_raw SizeClass.Zero 8 word = some (dangling 8) :=
  dangling_nonnull_aligned_and_to_raw 8 (by decide)

/-- C10: `new_zeroed_inline` returns, with no allocator call, an
uninitialized slot for class `Zero` and the all-zero null-pointer word for
class `Inline`, and panics for class `Boxed` — an index out of bounds, since
the array has two elements and `Boxed`'s discriminant is 2. -/
theorem new_zeroed_inline_per_class (α : Type) :
    new_zeroed_inline α SizeClass.Zero = some (Slot.uninit, Effect.zero) ∧
    new_zeroed_inline α SizeClass.Inline = some (Slot.ptr 0, Effect.zero) ∧
    new_zeroed_inline α SizeClass.Boxed = none ∧
    SizeClass.toIdx SizeClass.Boxed = 2 ∧
    ([Slot.uninit, Slot.ptr 0] : List (Slot α)).length = 2 := by
  refine ⟨rfl, rfl, rfl, rfl, rfl⟩

/-- C2: for every value `v` of every size class, `into_inner (new v)` equals
`v` (for class `Zero`, every value of the zero-sized type coincides with the
canonical inhabitant `z`); and across the full cycle
`new → into_ptr → from_ptr → drop`, the destructor of `T` runs exactly once
(`k` element-destructor invocations, e.g. `k = 16` for an array of 16
drop-counting elements), with `into_ptr` and `from_ptr` themselves running
no drop at all. `p` is the fresh non-null address the allocator hands out on
the `Boxed` path. -/
theorem into_inner_roundtrip_and_single_drop (α : Type) (c : SizeClass) (v z : α)
    (k p : Nat) (heap : Heap α) (hp : p ≠ 0) (hfree : heap p = HCell.free)
    (hz : c = SizeClass.Zero → ∀ x : α, x = z) :
    ((newBox c v p heap).bind fun r => (into_inner c z r.1 r.2.1).map fun s => s.1)
      = some v ∧
    ((newBox c v p heap).bind fun r =>
        (dropBox c k (from_ptr (into_ptr r.1).1).1 r.2.1).map fun s =>
          (r.2.2 + (into_ptr r.1).2 + (from_ptr (into_ptr r.1).1).2 + s.2).drops)
      = some k ∧
    (∀ s : Slot α, (into_ptr s).2.drops = 0 ∧ (from_ptr s).2.drops = 0) := by
  cases c with
  | Zero =>
    refine ⟨?_, ?_, fun s => ⟨rfl, rfl⟩⟩
    · simp [newBox, with_alloc, new_zeroed_inline, write, into_inner, into_ptr,
            SizeClass.toIdx]
      exact (hz rfl v).symm
    · simp [newBox, with_alloc, new_zeroed_inline, write, dropBox, into_ptr, from_ptr,
            SizeClass.toIdx, Effect.add_def, Effect.zero]
  | Inline =>
    refine ⟨?_, ?_, fun s => ⟨rfl, rfl⟩⟩
    · simp [newBox, with_alloc, new_zeroed_inline, write, into_inner, into_ptr,
            SizeClass.toIdx]
    · simp [newBox, with_alloc, new_zeroed_inline, write, dropBox, into_ptr, from_ptr,
            SizeClass.toIdx, Effect.add_def, Effect.zero]
  | Boxed =>
    refine ⟨?_, ?_, fun s => ⟨rfl, rfl⟩⟩
    · simp [newBox, with_alloc, write, into_inner, into_ptr, hp, hfree]
    · simp [newBox, with_alloc, write, dropBox, into_ptr, from_ptr, hp, hfree,
            Effect.add_def, Effect.zero]

/-- Witness for C2 on the `Boxed` class with `k = 16` (an array of 16
drop-counting elements), allocator address 1, empty heap. -/
theorem into_inner_roundtrip_and_single_drop_witness :
    ((newBox SizeClass.Boxed (5 : Nat) 1 (fun _ => HCell.free)).bind fun r =>
        (into_inner SizeClass.Boxed 0 r.1 r.2.1).map fun s => s.1)
      = some 5 ∧
    ((newBox SizeClass.Boxed (5 : Nat) 1 (fun _ => HCell.free)).bind fun r =>
        (dropBox SizeClass.Boxed 16 (from_ptr (into_ptr r.1).1).1 r.2.1).map fun s =>
          (r.2.2 + (into_ptr r.1).2 + (from_ptr (into_ptr r.1).1).2 + s.2).drops)
      = some 16 ∧
    (∀ s : Slot Nat, (into_ptr s).2.drops = 0 ∧ (from_ptr s).2.drops = 0) :=
  into_inner_roundtrip_and_single_drop Nat SizeClass.Boxed 5 0 16 1 (fun _ => HCell.free)
    (by decide) rfl (fun h => nomatch h)

/-- C4 as stated is false: `new_zst` does not drop the caller-provided value
before returning. The source runs `core::mem::ManuallyDrop::new(value)` — a
const-fn substitute for `mem::forget` — so zero destructor invocations happen
during `new_zst` (for a `Zero`-class type whose destructor counts one
invocation, the claim predicts one). -/
theorem new_zst_claimed_drop_counterexample :
    ((new_zst SizeClass.Zero ()).map fun r => r.2.drops) = some 0 ∧
    ¬ ((new_zst SizeClass.Zero ()).map fun r => r.2.drops) = some 1 := by
  constructor
  · rfl
  · intro h
    simp [new_zst, zstCheckTable, SizeClass.toIdx, Effect.zero] at h

/-- C4 amended: for a `Zero`-class type, `new_zst` moves the value in and
forgets it — zero destructor invocations during `new_zst` itself — and the
drop obligation transfers to the returned container, whose `Drop` runs the
destructor exactly once (through the dangling anchor), so the combined
`new_zst` + container-drop cycle performs exactly `k` element-destructor
invocations. -/
theorem new_zst_forgets_and_container_drop_runs_destructor (α : Type) (v : α)
    (k : Nat) (heap : Heap α) :
    new_zst SizeClass.Zero v = some (Slot.uninit, Effect.zero) ∧
    ((new_zst SizeClass.Zero v).bind fun r =>
        (dropBox SizeClass.Zero k r.1 heap).map fun s => (r.2 + s.2).drops)
      = some k := by
  constructor
  · rfl
  · simp [new_zst, zstCheckTable, SizeClass.toIdx, dropBox,
          Effect.add_def, Effect.zero]

/-- C6: for classes `Zero` and `Inline`, reserving storage
(`new_uninit`/`new_zeroed`/`zeroed` all run `with_alloc`), full construction
(`new`/`with` run `new_uninit().write(..)`), dereferencing, and dropping make
no call to the global allocator's allocate or deallocate entry points. -/
theorem zero_inline_never_touch_allocator (α : Type) (v : α)
    (k p alignT selfAddr : Nat) (heap : Heap α) (s : Slot α) :
    with_alloc α SizeClass.Zero p = WithAllocResult.ok Slot.uninit Effect.zero ∧
    with_alloc α SizeClass.Inline p = WithAllocResult.ok (Slot.ptr 0) Effect.zero ∧
    ((newBox SizeClass.Zero v p heap).map fun r => (r.2.2.allocs, r.2.2.frees))
      = some (0, 0) ∧
    ((newBox SizeClass.Inline v p heap).map fun r => (r.2.2.allocs, r.2.2.frees))
      = some (0, 0) ∧
    ((derefAddr SizeClass.Zero alignT selfAddr s).map fun r => r.2) = some Effect.zero ∧
    ((derefAddr SizeClass.Inline alignT selfAddr s).map fun r => r.2) = some Effect.zero ∧
    ((dropBox SizeClass.Zero k s heap).map fun r => (r.2.allocs, r.2.frees))
      = some (0, 0) ∧
    ((dropBox SizeClass.Inline k (Slot.inl v) heap).map fun r => (r.2.allocs, r.2.frees))
      = some (0, 0) := by
  refine ⟨rfl, rfl, rfl, rfl, rfl, rfl, rfl, rfl⟩

/-- C7: on the `Boxed` reservation path, a null allocator result makes
`with_alloc` invoke `handle_alloc_error` (modelled as the `fatal` outcome) and
no container is ever produced; a non-null result `p` yields a staging
container whose slot holds exactly `p` (with exactly one allocate call
recorded). -/
theorem boxed_alloc_failure_is_fatal (α : Type) (p : Nat) :
    (p = 0 → with_alloc α SizeClass.Boxed p = WithAllocResult.fatal) ∧
    (∀ s e, p = 0 → ¬ with_alloc α SizeClass.Boxed p = WithAllocResult.ok s e) ∧
    (p ≠ 0 → with_alloc α SizeClass.Boxed p = WithAllocResult.ok (Slot.ptr p) ⟨0, 1, 0⟩) := by
  refine ⟨fun h => by simp [with_alloc, h], fun s e h => by simp [with_alloc, h], fun h => by simp [with_alloc, h]⟩

/-- Witness for C7 with allocator results 0 (null) and 7. -/
theorem boxed_alloc_failure_is_fatal_witness :
    with_alloc Nat SizeClass.Boxed 0 = WithAllocResult.fatal ∧
    with_alloc Nat SizeClass.Boxed 7 = WithAllocResult.ok (Slot.ptr 7) ⟨0, 1, 0⟩ :=
  ⟨(boxed_alloc_failure_is_fatal Nat 0).1 rfl,
   (boxed_alloc_failure_is_fatal Nat 7).2.2 (by decide)⟩

/-- C8: converting a `Box<T>` into a `MiniBox<T>` yields the canonical
representation for `T`'s class and preserves the value: for `Zero` the
container has an uninitialized slot and no allocator call is made (a Rust box
of a zero-sized type owns no allocation); for `Inline` the value is moved
into the slot, the box's backing cell is deallocated (one deallocate call),
and no new allocation is made; for `Boxed` the slot takes the box's own
pointer, the heap is untouched, and no allocator call is made. -/
theorem from_box_canonical_representation (α : Type) (v : α) (a : Nat) (heap : Heap α)
    (hv : heap a = HCell.val v) :
    fromBox SizeClass.Zero v a heap = some (Slot.uninit, heap, Effect.zero) ∧
    fromBox SizeClass.Inline v a heap =
      some (Slot.inl v, (fun n => if n = a then HCell.free else heap n), ⟨0, 0, 1⟩) ∧
    fromBox SizeClass.Boxed v a heap = some (Slot.ptr a, heap, Effect.zero) := by
  refine ⟨rfl, ?_, rfl⟩
  simp [fromBox, hv, newBox, with_alloc, new_zeroed_inline, write, SizeClass.toIdx,
        Effect.add_def, Effect.zero]

/-- Witness for C8 with a box at address 3 holding the value 5. -/
theorem from_box_canonical_representation_witness :
    fromBox SizeClass.Zero (5 : Nat) 3 (fun _ => HCell.val 5)
      = some (Slot.uninit, (fun _ => HCell.val 5), Effect.zero) ∧
    fromBox SizeClass.Inline (5 : Nat) 3 (fun _ => HCell.val 5)
      = some (Slot.inl 5,
              (fun n => if n = 3 then HCell.free else (fun _ => HCell.val 5) n),
              ⟨0, 0, 1⟩) ∧
    fromBox SizeClass.Boxed (5 : Nat) 3 (fun _ => HCell.val 5)
      = some (Slot.ptr 3, (fun _ => HCell.val 5), Effect.zero) :=
  from_box_canonical_representation Nat 5 3 (fun _ => HCell.val 5) rfl

end Minibox
